import Mathlib

/-!
# Verification of the Emailer repository (botsarefuture/Emailer)

Shallow embedding of `src/emailer/EmailJob.py` and `src/emailer/EmailSender.py`.

Python dictionaries that serve as persisted documents are modelled as
association lists; `dict.get` returns a null value for absent keys, which is
mirrored by `sdictGet` / `dictGet` below.  Python exceptions are modelled by
the `PyErr` type and `Except`.  Side effects of the sending path (SMTP calls,
queue insertions, log lines, sleeps) are modelled as an explicit `Action`
trace.
-/

set_option autoImplicit false

namespace Emailer

/-- Python exception values that can arise on the paths modelled here. -/
inductive PyErr where
  /-- `ValueError`, e.g. from unpacking a `split` result of the wrong arity. -/
  | valueError
  /-- `UnicodeEncodeError`, raised by `formataddr` on a non-ASCII address. -/
  | unicodeEncodeError
  /-- `TypeError`, e.g. calling a constructor with an unexpected keyword. -/
  | typeError
  /-- `jinja2.TemplateNotFound` from `Environment.get_template`. -/
  | templateNotFound
  /-- Any other exception (SMTP errors, `IOError`, ...), tagged by a label. -/
  | exc (label : String)
deriving DecidableEq, Repr

instance {ε α : Type} [DecidableEq ε] [DecidableEq α] : DecidableEq (Except ε α) :=
  fun x y =>
    match x, y with
    | Except.ok a, Except.ok b => decidable_of_iff (a = b) (by simp)
    | Except.error e, Except.error f => decidable_of_iff (e = f) (by simp)
    | Except.ok _, Except.error _ => Decidable.isFalse (by simp)
    | Except.error _, Except.ok _ => Decidable.isFalse (by simp)

/-- A scalar value stored in a flat (sender) document. -/
inductive Scalar where
  /-- Python `None`. -/
  | snull
  /-- A string value. -/
  | sstr (s : String)
  /-- An integer value. -/
  | sint (n : Int)
  /-- A boolean value. -/
  | sbool (b : Bool)
deriving DecidableEq, Repr

/-- A sender document: the dictionary produced by `Sender.to_dict`. -/
abbrev SenderDoc := List (String × Scalar)

/-- A value stored in an email-job document. -/
inductive Value where
  /-- Python `None`. -/
  | vnull
  /-- A scalar value. -/
  | vscalar (x : Scalar)
  /-- A list of strings (the `recipients` field). -/
  | vstrlist (ss : List String)
  /-- A nested sender document (the `sender` field). -/
  | vdoc (d : SenderDoc)
  /-- A string-to-string mapping (an `extra_headers` field). -/
  | vpairs (kvs : List (String × String))
deriving DecidableEq, Repr

/-- An email-job document: the dictionary shape persisted in the queue. -/
abbrev JobDoc := List (String × Value)

/-- `d.get(k)` on a flat sender document: the stored scalar, or null when the
key is absent (Python `dict.get` defaults to `None`). -/
def sdictGet (d : SenderDoc) (k : String) : Scalar :=
  match d.find? (fun kv => kv.1 = k) with
  | some kv => kv.2
  | none => Scalar.snull

/-- `d.get(k)` on a job document: the stored value, or null when the key is
absent (Python `dict.get` defaults to `None`). -/
def dictGet (d : JobDoc) (k : String) : Value :=
  match d.find? (fun kv => kv.1 = k) with
  | some kv => kv.2
  | none => Value.vnull

/-- The `Sender` class of `src/emailer/EmailJob.py`: SMTP connection
parameters plus the outgoing identity.  `display_name` defaults to `None`. -/
structure Sender where
  email_server : String
  email_port : Int
  username : String
  password : String
  use_tls : Bool
  email_address : String
  display_name : Option String
deriving DecidableEq, Repr

namespace Sender

/-- `Sender.to_dict`: builds the seven-key dictionary, storing the password
as-is. -/
def to_dict (s : Sender) : SenderDoc :=
  [("email_server", Scalar.sstr s.email_server),
   ("email_port", Scalar.sint s.email_port),
   ("username", Scalar.sstr s.username),
   ("password", Scalar.sstr s.password),
   ("use_tls", Scalar.sbool s.use_tls),
   ("email_address", Scalar.sstr s.email_address),
   ("display_name", match s.display_name with
     | some dn => Scalar.sstr dn
     | none => Scalar.snull)]

/-- Decode a scalar expected to be a string.  Python performs no such check;
`none` marks a document outside the documented sender-field types, for which
the Python code would build a `Sender` violating its documented attribute
types. -/
def asStr : Scalar → Option String
  | Scalar.sstr s => some s
  | _ => none

/-- Decode a scalar expected to be an integer. -/
def asInt : Scalar → Option Int
  | Scalar.sint n => some n
  | _ => none

/-- Decode a scalar expected to be a boolean. -/
def asBool : Scalar → Option Bool
  | Scalar.sbool b => some b
  | _ => none

/-- Decode a scalar expected to be a string or `None` (the `display_name`
field). -/
def asOptStr : Scalar → Option (Option String)
  | Scalar.sstr s => some (some s)
  | Scalar.snull => some none
  | _ => none

/-- `Sender.from_dict`: reads the seven keys with `data.get` and calls the
constructor. -/
def from_dict (d : SenderDoc) : Option Sender := do
  let server ← asStr (sdictGet d "email_server")
  let port ← asInt (sdictGet d "email_port")
  let user ← asStr (sdictGet d "username")
  let pw ← asStr (sdictGet d "password")
  let tls ← asBool (sdictGet d "use_tls")
  let addr ← asStr (sdictGet d "email_address")
  let dn ← asOptStr (sdictGet d "display_name")
  some ⟨server, port, user, pw, tls, addr, dn⟩

/-- `Sender.get_sender_address`: `"Display Name <address>"` when the display
name is truthy (present and non-empty, per Python truthiness), else the bare
address. -/
def get_sender_address (s : Sender) : String :=
  match s.display_name with
  | some dn => if dn = "" then s.email_address else dn ++ " <" ++ s.email_address ++ ">"
  | none => s.email_address

end Sender

/-- The `EmailJob` class exactly as defined in `src/emailer/EmailJob.py`:
its constructor stores only these five attributes — it accepts no
`extra_headers` parameter, although `EmailSender.py` passes one. -/
structure EmailJob where
  subject : String
  recipients : List String
  body : Option String
  html : Option String
  sender : Option Sender
deriving DecidableEq, Repr

namespace EmailJob

/-- Convert an optional string attribute to its stored document value. -/
def optStrVal : Option String → Value
  | some s => Value.vscalar (Scalar.sstr s)
  | none => Value.vnull

/-- `EmailJob.to_dict`: the five-key dictionary; the nested sender document
when a sender is present, else null.  No `extra_headers` key exists. -/
def to_dict (j : EmailJob) : JobDoc :=
  [("subject", Value.vscalar (Scalar.sstr j.subject)),
   ("recipients", Value.vstrlist j.recipients),
   ("body", optStrVal j.body),
   ("html", optStrVal j.html),
   ("sender", match j.sender with
     | some s => Value.vdoc (Sender.to_dict s)
     | none => Value.vnull)]

/-- Decode an optional-string job field (`body`, `html`). -/
def asOptStrV : Value → Option (Option String)
  | Value.vscalar (Scalar.sstr s) => some (some s)
  | Value.vnull => some none
  | _ => none

/-- `EmailJob.from_dict`: reads the keys with `data.get`; the sender is
reconstructed only when `data.get("sender")` is truthy (a non-empty
dictionary — Python treats `None` and the empty dict as falsy). -/
def from_dict (d : JobDoc) : Option EmailJob := do
  let sender ← (match dictGet d "sender" with
    | Value.vdoc sd =>
      if sd = [] then some none
      else (Sender.from_dict sd).map some
    | Value.vnull => some none
    | _ => none)
  let subject ← (match dictGet d "subject" with
    | Value.vscalar (Scalar.sstr s) => some s
    | _ => none)
  let recipients ← (match dictGet d "recipients" with
    | Value.vstrlist ss => some ss
    | _ => none)
  let body ← asOptStrV (dictGet d "body")
  let html ← asOptStrV (dictGet d "html")
  some ⟨subject, recipients, body, html, sender⟩

end EmailJob

/-!
## Header normalization: `fix_from_header` (src/emailer/EmailSender.py)

The function works on Python strings; the model works on `List Char` cores
with `String` wrappers.  `s.split("<")` on the one-character separator is
`splitChar`, `s.replace(">", "")` is a filter, `s.strip()` is `strip`.
`email.header.Header(name, "utf-8").encode()` is `headerEncode`: in Python 3
the chunk keeps the utf-8 charset (no us-ascii downgrade), so every non-empty
name is emitted as an RFC 2047 encoded word; the utf-8 charset's SHORTEST
header encoding picks base64 only when strictly shorter than quoted-printable
(`Charset._get_encoder`), and an empty name encodes to the empty string.
Line folding of over-long values is not modelled.  `email.utils.formataddr`
is `formataddr`.
-/

/-- Python `str.strip` whitespace: the code points for which `str.isspace()`
holds (ASCII whitespace, the separator controls 28-31, and the Unicode
space characters). -/
def isPySpace (c : Char) : Bool :=
  let n := c.toNat
  (9 ≤ n && n ≤ 13) || (28 ≤ n && n ≤ 31) || n == 32 || n == 133 || n == 160 ||
    n == 5760 || (8192 ≤ n && n ≤ 8202) || n == 8232 || n == 8233 ||
    n == 8239 || n == 8287 || n == 12288

/-- Remove trailing whitespace. -/
def dropTrailing (l : List Char) : List Char :=
  (l.reverse.dropWhile isPySpace).reverse

/-- Python `str.strip()`: remove leading and trailing whitespace. -/
def strip (l : List Char) : List Char :=
  (dropTrailing l).dropWhile isPySpace

/-- Python `s.split(sep)` for a one-character separator: split at every
occurrence of `c`, keeping empty chunks. -/
def splitChar (c : Char) : List Char → List (List Char)
  | [] => [[]]
  | x :: xs =>
    match splitChar c xs with
    | [] => [[]]
    | r :: rs => if x = c then [] :: r :: rs else (x :: r) :: rs

/-- Is the string pure ASCII (every code point below 128)? -/
def isAsciiL (l : List Char) : Bool :=
  l.all (fun c => c.toNat < 128)

/-- The standard base64 alphabet. -/
def b64Alphabet : List Char :=
  "ABCDEFGHIJKLMNOPQRSTUVWXYZabcdefghijklmnopqrstuvwxyz0123456789+/".data

/-- The base64 digit for a 6-bit value. -/
def b64c (n : Nat) : Char :=
  b64Alphabet.getD n '?'

/-- Base64-encode a byte list, with `=` padding. -/
def base64Encode : List Nat → List Char
  | [] => []
  | [a] => [b64c (a / 4), b64c (a % 4 * 16), '=', '=']
  | [a, b] => [b64c (a / 4), b64c (a % 4 * 16 + b / 16), b64c (b % 16 * 4), '=']
  | a :: b :: c :: rest =>
    b64c (a / 4) :: b64c (a % 4 * 16 + b / 16) :: b64c (b % 16 * 4 + c / 64) ::
      b64c (c % 64) :: base64Encode rest

/-- The UTF-8 bytes of one character. -/
def utf8BytesChar (c : Char) : List Nat :=
  let n := c.toNat
  if n < 128 then [n]
  else if n < 2048 then [192 + n / 64, 128 + n % 64]
  else if n < 65536 then [224 + n / 4096, 128 + n / 64 % 64, 128 + n % 64]
  else [240 + n / 262144, 128 + n / 4096 % 64, 128 + n / 64 % 64, 128 + n % 64]

/-- The UTF-8 bytes of a string. -/
def utf8Bytes (l : List Char) : List Nat :=
  (l.map utf8BytesChar).flatten

/-- An uppercase hexadecimal digit (`"=%02X"` quoting). -/
def hexDigit (n : Nat) : Char :=
  "0123456789ABCDEF".data.getD n '?'

/-- The bytes `email.quoprimime._QUOPRI_HEADER_MAP` leaves unquoted in a
header: letters, digits, and `- ! * + /`. -/
def qpSafeByte (b : Nat) : Bool :=
  (65 ≤ b && b ≤ 90) || (97 ≤ b && b ≤ 122) || (48 ≤ b && b ≤ 57) ||
    b == 45 || b == 33 || b == 42 || b == 43 || b == 47

/-- One byte of header quoted-printable: safe bytes verbatim, space as `_`,
everything else as `=XX`. -/
def qpHeaderEncodeByte (b : Nat) : List Char :=
  if qpSafeByte b then [Char.ofNat b]
  else if b == 32 then ['_']
  else ['=', hexDigit (b / 16 % 16), hexDigit (b % 16)]

/-- `email.quoprimime.header_encode` payload of a byte string. -/
def qpHeaderEncode (bs : List Nat) : List Char :=
  (bs.map qpHeaderEncodeByte).flatten

/-- `email.base64mime.header_length`: four output characters per started
group of three bytes. -/
def b64HeaderLen (bs : List Nat) : Nat :=
  (bs.length + 2) / 3 * 4

/-- An RFC 2047 encoded word in charset utf-8, as produced by
`Charset("utf-8").header_encode`: the SHORTEST header encoding uses base64
only when strictly shorter than quoted-printable (`_get_encoder` compares
`header_length`s and ties go to quoted-printable). -/
def encodedWord (l : List Char) : List Char :=
  let bs := utf8Bytes l
  if b64HeaderLen bs < (qpHeaderEncode bs).length then
    "=?utf-8?b?".data ++ base64Encode bs ++ "?=".data
  else
    "=?utf-8?q?".data ++ qpHeaderEncode bs ++ "?=".data

/-- `Header(name, "utf-8").encode()` (Python 3): the chunk keeps the utf-8
charset, so a non-empty value always becomes an RFC 2047 encoded word
(SHORTEST choice of quoted-printable or base64); the empty value encodes to
the empty string. -/
def headerEncode (l : List Char) : List Char :=
  if l = [] then [] else encodedWord l

/-- The characters of `email.utils.specialsre` that force quoting of a
display name. -/
def specialsChars : List Char :=
  ['[', ']', '\\', '(', ')', '<', '>', '@', ',', ':', ';', '"', '.']

/-- `email.utils.escapesre` substitution: backslash-escape `\` and `"`. -/
def escapeName (l : List Char) : List Char :=
  (l.map (fun c => if c = '\\' || c = '"' then ['\\', c] else [c])).flatten

/-- `email.utils.formataddr (name, address)`: raises `UnicodeEncodeError` on a
non-ASCII address; an empty (falsy) name yields the bare address; a non-ASCII
name becomes an encoded word; an ASCII name is escaped and quoted when it
contains specials, then combined as `name <address>`. -/
def formataddr (name address : List Char) : Except PyErr (List Char) :=
  if isAsciiL address = false then Except.error PyErr.unicodeEncodeError
  else if name = [] then Except.ok address
  else if isAsciiL name = false then
    Except.ok (encodedWord name ++ ' ' :: '<' :: address ++ ['>'])
  else
    let quoted := name.any (fun c => c ∈ specialsChars)
    let esc := escapeName name
    Except.ok ((if quoted then '"' :: esc ++ ['"'] else esc) ++
      ' ' :: '<' :: address ++ ['>'])

/-- The core of `fix_from_header` on the characters of a string argument:
when both brackets occur, `name, address = from_address.split("<")` (a
`ValueError` unless `<` occurs exactly once), strip `>` from the address,
strip and header-encode the name, and reassemble with `formataddr`; otherwise
the whole input is the address and the name is empty. -/
def fixFromCore (a : List Char) : Except PyErr (List Char) :=
  if '<' ∈ a ∧ '>' ∈ a then
    match splitChar '<' a with
    | [name, address] =>
      formataddr (headerEncode (strip name)) (address.filter (fun c => c ≠ '>'))
    | _ => Except.error PyErr.valueError
  else
    formataddr (headerEncode (strip [])) a

/-- `fix_from_header` of `src/emailer/EmailSender.py` on a string argument
(the `None` short-circuit is outside the string domain modelled here). -/
def fix_from_header (a : String) : Except PyErr String :=
  (fixFromCore a.data).map String.mk

/-!
## The send path: `EmailSender` (src/emailer/EmailSender.py)

`EmailSender.send_email`, `process_queue`, `queue_email` and `send_now`
construct and read an email job carrying an `extra_headers` attribute
(`EmailJob(..., extra_headers=extra_headers)` and `email_job._extra_headers`).
The `EmailJob` class in `src/emailer/EmailJob.py` has no such attribute, so
the revision of the job class that the sender module assumes is not among the
provided sources; `EmailJobX` below models it.
-/

/-- Modelled from the spec: the revision of the `EmailJob` class assumed by
`EmailSender.py` (absent from `src/emailer/EmailJob.py`), carrying the
`extra_headers` mapping in addition to the five attributes of the provided
class, per the documented persisted job document shape
`{subject, recipients, body, html, sender, extra_headers}`. -/
structure EmailJobX where
  subject : String
  recipients : List String
  body : Option String
  html : Option String
  sender : Option Sender
  extra_headers : Option (List (String × String))
deriving DecidableEq, Repr

namespace EmailJobX

/-- `to_dict` of the modelled job revision: the five keys of the provided
class plus `extra_headers`. -/
def to_dict (j : EmailJobX) : JobDoc :=
  [("subject", Value.vscalar (Scalar.sstr j.subject)),
   ("recipients", Value.vstrlist j.recipients),
   ("body", EmailJob.optStrVal j.body),
   ("html", EmailJob.optStrVal j.html),
   ("sender", match j.sender with
     | some s => Value.vdoc (Sender.to_dict s)
     | none => Value.vnull),
   ("extra_headers", match j.extra_headers with
     | some kvs => Value.vpairs kvs
     | none => Value.vnull)]

/-- `from_dict` of the modelled job revision. -/
def from_dict (d : JobDoc) : Option EmailJobX := do
  let sender ← (match dictGet d "sender" with
    | Value.vdoc sd =>
      if sd = [] then some none
      else (Sender.from_dict sd).map some
    | Value.vnull => some none
    | _ => none)
  let subject ← (match dictGet d "subject" with
    | Value.vscalar (Scalar.sstr s) => some s
    | _ => none)
  let recipients ← (match dictGet d "recipients" with
    | Value.vstrlist ss => some ss
    | _ => none)
  let body ← EmailJob.asOptStrV (dictGet d "body")
  let html ← EmailJob.asOptStrV (dictGet d "html")
  let hdrs ← (match dictGet d "extra_headers" with
    | Value.vpairs kvs => some (some kvs)
    | Value.vnull => some none
    | _ => none)
  some ⟨subject, recipients, body, html, sender, hdrs⟩

end EmailJobX

/-- The MIME message assembled by `send_email`: required headers, the extra
headers in their stored order, and the attached parts in attach order
(plain before html). -/
structure Message where
  subject : String
  fromHeader : String
  toHeader : String
  extraHeaders : List (String × String)
  parts : List (String × String)
deriving DecidableEq, Repr

/-- The rendering context passed to the template engine. -/
abbrev Ctx := List (String × String)

/-- One observable side effect of the sender module. -/
inductive Action where
  /-- A `logger.debug` / `logger.info` line. -/
  | logDebug
  /-- A `logger.error` line with its message. -/
  | logError (msg : String)
  /-- `smtplib.SMTP(server, port)`. -/
  | smtpConnect (server : String) (port : Int)
  /-- `server.starttls()`. -/
  | startTls
  /-- `server.login(username, password)`. -/
  | login (username password : String)
  /-- The debug dump of the composed message to `email.txt`. -/
  | fileWrite (m : Message)
  /-- `server.sendmail(envelope_from, recipients, msg)`. -/
  | sendmail (envelopeFrom : String) (recipients : List String) (m : Message)
  /-- `insert_one(document)` on the queue collection. -/
  | queueInsert (d : JobDoc)
  /-- `get_template(name)` plus `template.render(context)`. -/
  | render (template : String) (context : Ctx)
  /-- `time.sleep(n)`. -/
  | sleep (n : Nat)
deriving DecidableEq, Repr

/-- The environment of failure points of one SMTP exchange: each field gives
the exception the corresponding library call raises, or `none` when the call
succeeds. -/
structure SmtpOracle where
  connectErr : String → Int → Option PyErr
  starttlsErr : Option PyErr
  loginErr : String → String → Option PyErr
  fileWriteErr : Option PyErr
  sendmailErr : Option PyErr

/-- The template-rendering collaborator: `get_template` plus `render`,
raising e.g. `TemplateNotFound` as an error. -/
structure RenderEnv where
  render : String → Ctx → Except PyErr String

/-- `self.default_sender` resolution inside `send_email`: the job-level
sender when present, else the process-wide default. -/
def resolveSender (job : EmailJobX) (dflt : Option Sender) : Option Sender :=
  match job.sender with
  | some s => some s
  | none => dflt

/-- Message construction of `send_email` (steps before the SMTP session):
subject verbatim, From through `fix_from_header` of the resolved sender's
formatted identity (the one fallible step), To as the comma-joined recipient
list, extra headers in stored order, then the plain part if the body is
truthy and the html part if the html is truthy. -/
def buildMessage (s : Sender) (job : EmailJobX) : Except PyErr Message :=
  match fix_from_header s.get_sender_address with
  | Except.error e => Except.error e
  | Except.ok fixedFrom =>
    Except.ok
      { subject := job.subject
        fromHeader := fixedFrom
        toHeader := String.intercalate ", " job.recipients
        extraHeaders := match job.extra_headers with
          | some kvs => kvs
          | none => []
        parts :=
          (match job.body with
            | some b => if b = "" then [] else [("plain", b)]
            | none => []) ++
          (match job.html with
            | some h => if h = "" then [] else [("html", h)]
            | none => []) }

/-- The result of one attempt of the `try` body of `send_email`. -/
inductive AttemptResult where
  /-- Some step raised this exception. -/
  | failed (e : PyErr)
  /-- `sendmail` was reached and succeeded. -/
  | delivered (envelopeFrom : String) (recipients : List String) (m : Message)
deriving DecidableEq, Repr

/-- The SMTP session of `send_email`: connect, `starttls` when the TLS flag
is set, login with the resolved sender's username/password, dump the message
to `email.txt`, then `sendmail(sender._username, recipients, msg)`.  Actions
performed before a failing step are recorded. -/
def smtpSend (s : Sender) (o : SmtpOracle) (rcpts : List String) (m : Message) :
    List Action × AttemptResult :=
  match o.connectErr s.email_server s.email_port with
  | some e => ([], AttemptResult.failed e)
  | none =>
    let a1 := [Action.smtpConnect s.email_server s.email_port]
    match (if s.use_tls then o.starttlsErr else none) with
    | some e => (a1, AttemptResult.failed e)
    | none =>
      let a2 := a1 ++ (if s.use_tls then [Action.startTls] else [])
      match o.loginErr s.username s.password with
      | some e => (a2, AttemptResult.failed e)
      | none =>
        let a3 := a2 ++ [Action.login s.username s.password]
        match o.fileWriteErr with
        | some e => (a3, AttemptResult.failed e)
        | none =>
          let a4 := a3 ++ [Action.fileWrite m]
          match o.sendmailErr with
          | some e => (a4, AttemptResult.failed e)
          | none =>
            (a4 ++ [Action.sendmail s.username rcpts m],
             AttemptResult.delivered s.username rcpts m)

/-- The whole `try` body of `send_email` after sender resolution. -/
def attemptSend (s : Sender) (o : SmtpOracle) (job : EmailJobX) :
    List Action × AttemptResult :=
  match buildMessage s job with
  | Except.error e => ([], AttemptResult.failed e)
  | Except.ok m => smtpSend s o job.recipients m

/-- The outcome of `send_email` as observed by its caller. -/
inductive SendOutcome where
  /-- No job-level and no default sender: the error is logged and the method
  returns. -/
  | noSender
  /-- An exception was caught by the top-level handler and logged. -/
  | failedLogged (e : PyErr)
  /-- The message was transmitted. -/
  | sent (envelopeFrom : String) (recipients : List String) (m : Message)
  /-- An exception escaped to the caller.  `send_email` never produces this
  outcome; it exists so that the absence of escaping exceptions is a provable
  property rather than a typing artifact. -/
  | raised (e : PyErr)
deriving DecidableEq, Repr

/-- The `logger.error` message of the failed sender fallback. -/
def noSenderMsg : String :=
  "No sender information provided. Fallback to default sender failed."

/-- The prefix of the `logger.error` message of the top-level handler. -/
def failedSendMsg : String := "Failed to send email"

/-- `EmailSender.send_email`: resolve the sender (job-level, else default;
else log and return), run the `try` body, and catch any exception at the top
level, logging it.  The failed job is dropped: no action re-inserts it. -/
def send_email (dflt : Option Sender) (o : SmtpOracle) (job : EmailJobX) :
    List Action × SendOutcome :=
  match resolveSender job dflt with
  | none => ([Action.logError noSenderMsg], SendOutcome.noSender)
  | some s =>
    match attemptSend s o job with
    | (acts, AttemptResult.failed e) =>
      (acts ++ [Action.logError failedSendMsg], SendOutcome.failedLogged e)
    | (acts, AttemptResult.delivered env r m) =>
      (acts, SendOutcome.sent env r m)

/-- One iteration of the `while True` loop of `EmailSender.process_queue`:
atomically pop one document (`find_one_and_delete`); when one was found,
reconstruct the job and send it; either way, `time.sleep(5)` ends the
iteration.  A document outside the typed job shape is modelled as popped
without a send attempt (Python's `from_dict` is total; `send_email` would
then fail and log). -/
def processQueueStep (dflt : Option Sender) (o : SmtpOracle) (q : List JobDoc) :
    List Action × List JobDoc :=
  match q with
  | [] => ([Action.logDebug, Action.sleep 5], [])
  | d :: rest =>
    match EmailJobX.from_dict d with
    | some job => ((send_email dflt o job).1 ++ [Action.sleep 5], rest)
    | none => ([Action.sleep 5], rest)

/-- `EmailSender.queue_email`: render the template with the context (errors
propagate to the caller), build the job with the rendered output as both body
and html, and, when `send` is true, insert its serialized form into the
queue collection; otherwise only log the dry run. -/
def queue_email (env : RenderEnv) (tname subject : String)
    (recipients : List String) (context : Ctx) (sender : Option Sender)
    (extra_headers : Option (List (String × String))) (send : Bool) :
    Except PyErr (List Action) :=
  match env.render tname context with
  | Except.error e => Except.error e
  | Except.ok body =>
    let job : EmailJobX := ⟨subject, recipients, some body, some body, sender, extra_headers⟩
    if send then
      Except.ok [Action.render tname context,
        Action.queueInsert (EmailJobX.to_dict job), Action.logDebug]
    else
      Except.ok [Action.render tname context, Action.logDebug]

/-- `EmailSender.send_now`: identical construction to `queue_email`, but the
job is handed directly to `send_email` instead of being inserted. -/
def send_now (env : RenderEnv) (dflt : Option Sender) (o : SmtpOracle)
    (tname subject : String) (recipients : List String) (context : Ctx)
    (sender : Option Sender) (extra_headers : Option (List (String × String)))
    (send : Bool) : Except PyErr (List Action) :=
  match env.render tname context with
  | Except.error e => Except.error e
  | Except.ok body =>
    let job : EmailJobX := ⟨subject, recipients, some body, some body, sender, extra_headers⟩
    if send then
      Except.ok ([Action.render tname context] ++ (send_email dflt o job).1 ++
        [Action.logDebug])
    else
      Except.ok [Action.render tname context, Action.logDebug]

/-- Replay the queue-visible effects of an action trace on a queue state:
only `queueInsert` changes the stored collection. -/
def applyActions (q : List JobDoc) : List Action → List JobDoc
  | [] => q
  | Action.queueInsert d :: rest => applyActions (q ++ [d]) rest
  | _ :: rest => applyActions q rest

/-!
## Concrete fixtures used by witnesses and counterexamples
-/

/-- A job document holding an `extra_headers` field, as the persisted-document
shape documented for the queue prescribes; used to exercise
`EmailJob.from_dict`/`to_dict` on such a document. -/
def docWithHeaders : JobDoc :=
  [("subject", Value.vscalar (Scalar.sstr "Hi")),
   ("recipients", Value.vstrlist ["x@y.com"]),
   ("body", Value.vscalar (Scalar.sstr "hello")),
   ("html", Value.vscalar (Scalar.sstr "<p>hello</p>")),
   ("sender", Value.vnull),
   ("extra_headers", Value.vpairs [("Reply-To", "ops@example.com")])]

/-- An SMTP environment in which every library call succeeds. -/
def oracle0 : SmtpOracle :=
  ⟨fun _ _ => none, none, fun _ _ => none, none, none⟩

/-- An SMTP environment whose login call raises. -/
def oracleLoginFail : SmtpOracle :=
  ⟨fun _ _ => none, none, fun _ _ => some (PyErr.exc "SMTPAuthenticationError"), none, none⟩

/-- A concrete sender whose username differs from its email address. -/
def sender0 : Sender :=
  ⟨"smtp.example.com", 587, "user", "pw", false, "team@example.com", none⟩

/-- A concrete job without a job-level sender. -/
def jobNoSender : EmailJobX :=
  ⟨"Hi", ["x@y.com"], some "hello", none, none, none⟩

/-- A concrete job carrying `sender0`. -/
def jobWithSender : EmailJobX :=
  ⟨"Hi", ["x@y.com"], some "hello", none, some sender0, none⟩

/-- The message `send_email` builds for `jobWithSender`. -/
def msg0 : Message :=
  ⟨"Hi", "team@example.com", "x@y.com", [], [("plain", "hello")]⟩

/-- A rendering environment whose every template renders to `"Hello Jo"`. -/
def renderEnv0 : RenderEnv :=
  ⟨fun _ _ => Except.ok "Hello Jo"⟩

/-- The document of `jobNoSender`, as stored in the queue. -/
def queuedDoc0 : JobDoc := EmailJobX.to_dict jobNoSender

/-!
## Helper lemmas
-/

/-- Rebuilding a string from its characters gives the string back. -/
theorem stringMk_data (s : String) : String.mk s.data = s := rfl

/-- `splitChar` never returns the empty list of chunks. -/
theorem splitChar_ne_nil (c : Char) (l : List Char) : splitChar c l ≠ [] := by
  cases l with
  | nil => simp [splitChar]
  | cons x xs =>
    simp only [splitChar]
    cases h : splitChar c xs with
    | nil => simp
    | cons r rs => by_cases hx : x = c <;> simp [hx]

/-- Splitting a string that does not contain the separator yields the one
chunk. -/
theorem splitChar_eq_single {c : Char} {l : List Char} (h : c ∉ l) :
    splitChar c l = [l] := by
  induction l with
  | nil => rfl
  | cons x xs ih =>
    have hx : ¬ x = c := fun e => h (e ▸ List.mem_cons_self x xs)
    have hxs : c ∉ xs := fun m => h (List.mem_cons_of_mem x m)
    simp [splitChar, ih hxs, hx]

/-- Splitting at the separator itself prepends an empty chunk. -/
theorem splitChar_cons_self (c : Char) (l : List Char) :
    splitChar c (c :: l) = [] :: splitChar c l := by
  simp only [splitChar]
  cases h : splitChar c l with
  | nil => exact absurd h (splitChar_ne_nil c l)
  | cons r rs => simp

/-- Splitting at the first occurrence of the separator. -/
theorem splitChar_append {c : Char} {l₁ l₂ : List Char} (h : c ∉ l₁) :
    splitChar c (l₁ ++ c :: l₂) = l₁ :: splitChar c l₂ := by
  induction l₁ with
  | nil => simpa using splitChar_cons_self c l₂
  | cons x xs ih =>
    have hx : ¬ x = c := fun e => h (e ▸ List.mem_cons_self x xs)
    have hxs : c ∉ xs := fun m => h (List.mem_cons_of_mem x m)
    rw [List.cons_append]
    simp only [splitChar, ih hxs]
    simp [hx]

/-- A trailing blank is removed by `strip`. -/
theorem strip_append_space (l : List Char) : strip (l ++ [' ']) = strip l := by
  simp [strip, dropTrailing, List.reverse_append, List.dropWhile, isPySpace]

/-- `fix_from_header` on an identity of the shape `name <addr>`: the name
chunk is stripped, header-encoded, and recombined with the bracket-free
address by `formataddr`. -/
theorem fixFromCore_split (name addr : List Char)
    (h1 : '<' ∉ name) (h3 : '<' ∉ addr) (h4 : '>' ∉ addr) :
    fixFromCore (name ++ ' ' :: '<' :: addr ++ ['>']) =
      formataddr (headerEncode (strip name)) addr := by
  have e : name ++ ' ' :: '<' :: addr ++ ['>'] =
      (name ++ [' ']) ++ '<' :: (addr ++ ['>']) := by simp
  have hno1 : '<' ∉ name ++ [' '] := by
    intro m
    rcases List.mem_append.mp m with m1 | m1
    · exact h1 m1
    · simp at m1
  have hno2 : '<' ∉ addr ++ ['>'] := by
    intro m
    rcases List.mem_append.mp m with m1 | m1
    · exact h3 m1
    · simp at m1
  rw [e]
  unfold fixFromCore
  rw [if_pos (by constructor <;> simp)]
  rw [splitChar_append hno1, splitChar_eq_single hno2]
  have hf : (addr ++ ['>']).filter (fun c => c ≠ '>') = addr := by
    rw [List.filter_append]
    have hsame : addr.filter (fun c => c ≠ '>') = addr :=
      List.filter_eq_self.mpr (fun a ha => by
        simp only [ne_eq, decide_not]
        simp
        exact fun ee => h4 (ee ▸ ha))
    simp [hsame]
    exact fun a ha ee => h4 (ee ▸ ha)
  simp only [hf, strip_append_space]

/-- `fix_from_header` on an ASCII input without the bracket pair returns the
input itself: the whole string is used as the address with an empty display
name, and `formataddr` with an empty name is the identity. -/
theorem fix_no_brackets (a : String) (h : ¬ ('<' ∈ a.data ∧ '>' ∈ a.data))
    (hascii : isAsciiL a.data = true) : fix_from_header a = Except.ok a := by
  unfold fix_from_header fixFromCore
  rw [if_neg h]
  have hse : headerEncode (strip []) = [] := rfl
  rw [hse]
  unfold formataddr
  rw [hascii]
  simp only [Bool.true_eq_false, if_false]
  rfl

/-- Every action of the SMTP session is one of its five library calls, with
the resolved sender's parameters. -/
theorem smtpSend_acts (s : Sender) (o : SmtpOracle) (r : List String) (m : Message) :
    ∀ a ∈ (smtpSend s o r m).1,
      a = Action.smtpConnect s.email_server s.email_port ∨ a = Action.startTls ∨
      a = Action.login s.username s.password ∨ a = Action.fileWrite m ∨
      a = Action.sendmail s.username r m := by
  intro a ha
  unfold smtpSend at ha
  split at ha
  · simp at ha
  · dsimp only at ha
    split at ha
    · simp at ha
      tauto
    · split at ha
      · simp at ha
        tauto
      · split at ha
        · simp at ha
          tauto
        · split at ha <;>
          · simp at ha
            tauto

/-- Every action of the `try` body happens inside the SMTP session, on the
message that was successfully built. -/
theorem attemptSend_acts (s : Sender) (o : SmtpOracle) (job : EmailJobX) :
    ∀ a ∈ (attemptSend s o job).1,
      ∃ m, buildMessage s job = Except.ok m ∧ a ∈ (smtpSend s o job.recipients m).1 := by
  intro a ha
  unfold attemptSend at ha
  split at ha
  · simp at ha
  · next m heq => exact ⟨m, heq, ha⟩

/-- Every action of `send_email` is an error log line or an action of the
`try` body run with the resolved sender. -/
theorem send_email_acts (dflt : Option Sender) (o : SmtpOracle) (job : EmailJobX) :
    ∀ a ∈ (send_email dflt o job).1,
      (a = Action.logError noSenderMsg ∨ a = Action.logError failedSendMsg) ∨
      ∃ s, resolveSender job dflt = some s ∧ a ∈ (attemptSend s o job).1 := by
  intro a ha
  unfold send_email at ha
  split at ha
  · simp at ha
    left
    left
    exact ha
  · next s heq =>
    split at ha
    · next acts e heq2 =>
      rcases List.mem_append.mp ha with h1 | h1
      · right
        exact ⟨s, heq, by rw [heq2]; exact h1⟩
      · simp at h1
        tauto
    · next acts env r m heq2 =>
      right
      exact ⟨s, heq, by rw [heq2]; exact ha⟩

/-- `send_email` never inserts anything into the queue collection. -/
theorem send_email_no_insert (dflt : Option Sender) (o : SmtpOracle)
    (job : EmailJobX) (d : JobDoc) :
    Action.queueInsert d ∉ (send_email dflt o job).1 := by
  intro hmem
  rcases send_email_acts dflt o job _ hmem with (h | h) | ⟨s, hs, hmem2⟩
  · simp at h
  · simp at h
  · rcases attemptSend_acts s o job _ hmem2 with ⟨m, hbm, hmem3⟩
    rcases smtpSend_acts s o job.recipients m _ hmem3 with h | h | h | h | h <;> simp at h

/-- `send_email` never lets an exception escape to its caller. -/
theorem send_email_no_raise (dflt : Option Sender) (o : SmtpOracle)
    (job : EmailJobX) (e : PyErr) :
    (send_email dflt o job).2 ≠ SendOutcome.raised e := by
  unfold send_email
  split
  · simp
  · split <;> simp

/-- A successfully built message carries the `fix_from_header` result of the
sender's formatted identity as its From header. -/
theorem buildMessage_fromHeader {s : Sender} {job : EmailJobX} {m : Message}
    (h : buildMessage s job = Except.ok m) :
    fix_from_header s.get_sender_address = Except.ok m.fromHeader := by
  unfold buildMessage at h
  split at h
  · exact absurd h (by simp)
  · next fixedFrom heq =>
    simp only [Except.ok.injEq] at h
    subst h
    exact heq


/-- Claim C1: for every value of the provided `EmailJob` class, the
`from_dict`/`to_dict` round trip reproduces subject, recipients (in order),
body, html and the sender fields; but the serialized form consists of exactly
the five keys `subject, recipients, body, html, sender`, so the
`extra_headers` of the claim cannot round-trip: a stored document carrying an
`extra_headers` field loses it after `from_dict`/`to_dict`. -/
theorem C1_emailjob_roundtrip_no_extra_headers :
    (∀ j : EmailJob, EmailJob.from_dict (EmailJob.to_dict j) = some j ∧
      (EmailJob.to_dict j).map Prod.fst =
        ["subject", "recipients", "body", "html", "sender"]) ∧
    (EmailJob.from_dict docWithHeaders).map
      (fun j => (EmailJob.to_dict j).map Prod.fst) =
      some ["subject", "recipients", "body", "html", "sender"] := by
  constructor
  · intro j
    constructor
    · cases j with
      | mk su r b h sd =>
        cases sd with
        | none => cases b <;> cases h <;> rfl
        | some s =>
          cases b <;> cases h <;> (cases s with
            | mk a b2 c d e f g => cases g <;> rfl)
    · rfl
  · rfl

/-- Claim C6: the `Sender` round trip `from_dict (to_dict s)` reproduces all
seven attributes, and the stored `password` entry is the password exactly as
held by the value, unredacted. -/
theorem C6_sender_roundtrip (s : Sender) :
    Sender.from_dict (Sender.to_dict s) = some s ∧
    sdictGet (Sender.to_dict s) "password" = Scalar.sstr s.password := by
  constructor
  · cases s with
    | mk a b c d e f g => cases g <;> rfl
  · rfl

/-- Claim C2 counterexample: the bracket-free input `"team@example.com"` does
not raise during header normalization; `fix_from_header` returns it as a
normally formatted result, refuting the claim that every input lacking the
bracket delimiters fails loudly. -/
theorem C2_counterexample :
    ('<' ∉ "team@example.com".data ∧ '>' ∉ "team@example.com".data) ∧
    fix_from_header "team@example.com" = Except.ok "team@example.com" :=
  ⟨by decide, rfl⟩

/-- Claim C2 (amended): for every ASCII input lacking the bracket pair,
`fix_from_header` raises nothing and silently returns the input unchanged,
treating the whole string as the address with an empty display name (only a
non-ASCII bracketless input raises, a `UnicodeEncodeError` from `formataddr`
address validation, not a distinct data-quality error). -/
theorem C2_bracketless_silent (a : String)
    (h : ¬ ('<' ∈ a.data ∧ '>' ∈ a.data)) (hascii : isAsciiL a.data = true) :
    fix_from_header a = Except.ok a :=
  fix_no_brackets a h hascii

/-- Witness for the amended claim C2 at the input `"team@example.com"`. -/
theorem C2_bracketless_silent_witness :
    fix_from_header "team@example.com" = Except.ok "team@example.com" :=
  C2_bracketless_silent "team@example.com" (by decide) (by decide)

/-- Claim C7: on an identity of the form `name ++ " <" ++ addr ++ ">"`, the
From-header normalization strips the name, RFC 2047-encodes it in UTF-8
(`headerEncode`), and recombines it with the address via address formatting
(`formataddr`). -/
theorem C7_header_normalization (name addr : String)
    (h1 : '<' ∉ name.data) (h3 : '<' ∉ addr.data) (h4 : '>' ∉ addr.data) :
    fix_from_header (name ++ " <" ++ addr ++ ">") =
      (formataddr (headerEncode (strip name.data)) addr.data).map String.mk := by
  unfold fix_from_header
  have e : (name ++ " <" ++ addr ++ ">").data =
      name.data ++ ' ' :: '<' :: addr.data ++ ['>'] := by
    simp [String.data_append]
  rw [e, fixFromCore_split name.data addr.data h1 h3 h4]

/-- Witness for claim C7: the input `"Team <team@example.com>"` yields the
formatted From header `"=?utf-8?q?Team?= <team@example.com>"` — the RFC 2047
encoded word whose quoted-printable payload, and hence decoded display name,
is `"Team"` (quoted-printable is the identity on these safe ASCII bytes),
recombined with the address part `"team@example.com"`. -/
theorem C7_header_normalization_witness :
    fix_from_header ("Team" ++ " <" ++ "team@example.com" ++ ">") =
      Except.ok (String.mk ("=?utf-8?q?".data ++ "Team".data ++ "?= <team@example.com>".data)) := by
  rw [C7_header_normalization "Team" "team@example.com" (by decide) (by decide) (by decide)]
  rfl

/-- Claim C3 counterexample: an iteration of the queue-worker loop that pops
a document (the queue shrinks from one document to none) nevertheless ends
with the fixed 5-unit wait, refuting the claim that the wait occurs only on
the empty branch. -/
theorem C3_counterexample :
    (processQueueStep none oracle0 [queuedDoc0]).2 = [] ∧
    Action.sleep 5 ∈ (processQueueStep none oracle0 [queuedDoc0]).1 := by
  constructor
  · rfl
  · decide

/-- Claim C3 (amended): every iteration of the queue-worker loop ends with
the fixed wait of 5 time units, whether or not a document was popped. -/
theorem C3_sleep_every_iteration (dflt : Option Sender) (o : SmtpOracle)
    (q : List JobDoc) :
    (processQueueStep dflt o q).1.getLast? = some (Action.sleep 5) := by
  rcases q with _ | ⟨d, rest⟩
  · rfl
  · rcases h : EmailJobX.from_dict d with _ | job <;>
      simp [processQueueStep, h, List.getLast?_concat]


/-- Claim C4: the send path resolves the effective sender as the job-level
sender if present, else the process-wide default; when neither exists it
logs the "no sender available" error and returns normally (outcome
`noSender`, no raise) with no transmission attempted; any SMTP connection it
does open targets the resolved sender's server and port. -/
theorem C4_sender_resolution (dflt : Option Sender) (o : SmtpOracle) (job : EmailJobX) :
    (∀ s, job.sender = some s → resolveSender job dflt = some s) ∧
    (job.sender = none → resolveSender job dflt = dflt) ∧
    (resolveSender job dflt = none →
      send_email dflt o job = ([Action.logError noSenderMsg], SendOutcome.noSender)) ∧
    (∀ host port, Action.smtpConnect host port ∈ (send_email dflt o job).1 →
      ∃ s, resolveSender job dflt = some s ∧ host = s.email_server ∧ port = s.email_port) := by
  refine ⟨?_, ?_, ?_, ?_⟩
  · intro s h
    simp [resolveSender, h]
  · intro h
    simp [resolveSender, h]
  · intro h
    simp [send_email, h]
  · intro host port hmem
    rcases send_email_acts dflt o job _ hmem with (h | h) | ⟨s, hs, hmem2⟩
    · simp at h
    · simp at h
    · rcases attemptSend_acts s o job _ hmem2 with ⟨m, hbm, hmem3⟩
      rcases smtpSend_acts s o job.recipients m _ hmem3 with h | h | h | h | h
      · injection h with hh hp
        exact ⟨s, hs, hh, hp⟩
      · simp at h
      · simp at h
      · simp at h
      · simp at h

/-- Witness for claim C4 at concrete jobs: a job-level sender wins, a missing
job-level sender falls back to the default, no sender at all yields the
logged `noSender` return, and the one connection opened for `jobWithSender`
targets that sender's server and port. -/
theorem C4_sender_resolution_witness :
    resolveSender jobWithSender none = some sender0 ∧
    resolveSender jobNoSender (some sender0) = some sender0 ∧
    send_email none oracle0 jobNoSender =
      ([Action.logError noSenderMsg], SendOutcome.noSender) ∧
    (∃ s, resolveSender jobWithSender none = some s ∧
      "smtp.example.com" = s.email_server ∧ (587 : Int) = s.email_port) :=
  ⟨(C4_sender_resolution none oracle0 jobWithSender).1 sender0 rfl,
   (C4_sender_resolution (some sender0) oracle0 jobNoSender).2.1 rfl,
   (C4_sender_resolution none oracle0 jobNoSender).2.2.1 rfl,
   (C4_sender_resolution none oracle0 jobWithSender).2.2.2 "smtp.example.com" 587 (by decide)⟩

/-- Claim C5: for every job and every failure of message construction,
connection, authentication or sending, `send_email` returns normally — the
outcome is never `raised`, every failing run ends in a logged
`failedLogged` outcome, and no action of the send path re-inserts a document
into the queue. -/
theorem C5_exceptions_caught (dflt : Option Sender) (o : SmtpOracle) (job : EmailJobX) :
    (∀ e, (send_email dflt o job).2 ≠ SendOutcome.raised e) ∧
    (∀ d, Action.queueInsert d ∉ (send_email dflt o job).1) ∧
    ((send_email dflt o job).2 = SendOutcome.noSender ∨
     (∃ e acts, send_email dflt o job =
        (acts ++ [Action.logError failedSendMsg], SendOutcome.failedLogged e)) ∨
     (∃ env r m, (send_email dflt o job).2 = SendOutcome.sent env r m)) := by
  refine ⟨fun e => send_email_no_raise dflt o job e,
    fun d => send_email_no_insert dflt o job d, ?_⟩
  unfold send_email
  split
  · left
    rfl
  · split
    · next acts e heq =>
      right
      left
      exact ⟨e, acts, rfl⟩
    · next acts env r m heq =>
      right
      right
      exact ⟨env, r, m, rfl⟩

/-- Witness for claim C5 at a concrete job whose SMTP login raises: the
outcome is a caught, logged failure, nothing is raised, and nothing is
re-queued. -/
theorem C5_exceptions_caught_witness :
    (∀ e, (send_email none oracleLoginFail jobWithSender).2 ≠ SendOutcome.raised e) ∧
    (∀ d, Action.queueInsert d ∉ (send_email none oracleLoginFail jobWithSender).1) ∧
    ((send_email none oracleLoginFail jobWithSender).2 = SendOutcome.noSender ∨
     (∃ e acts, send_email none oracleLoginFail jobWithSender =
        (acts ++ [Action.logError failedSendMsg], SendOutcome.failedLogged e)) ∨
     (∃ env r m, (send_email none oracleLoginFail jobWithSender).2 =
        SendOutcome.sent env r m)) :=
  C5_exceptions_caught none oracleLoginFail jobWithSender

/-- Claim C9: whenever the send path reaches `sendmail`, the envelope sender
it passes is the resolved sender's username (the authentication credential),
the recipients are the job's, and the From header of the transmitted message
was built from the email address (via `fix_from_header` of the formatted
identity); so when username and email address differ (bare ASCII identity),
the envelope sender and the From header disagree. -/
theorem C9_envelope_username (dflt : Option Sender) (o : SmtpOracle) (job : EmailJobX)
    (env : String) (rc : List String) (m : Message)
    (hmem : Action.sendmail env rc m ∈ (send_email dflt o job).1) :
    ∃ s, resolveSender job dflt = some s ∧ env = s.username ∧ rc = job.recipients ∧
      fix_from_header s.get_sender_address = Except.ok m.fromHeader ∧
      (s.display_name = none → isAsciiL s.email_address.data = true →
        '<' ∉ s.email_address.data → '>' ∉ s.email_address.data →
        s.username ≠ s.email_address → env ≠ m.fromHeader) := by
  rcases send_email_acts dflt o job _ hmem with (h | h) | ⟨s, hs, hmem2⟩
  · simp at h
  · simp at h
  · rcases attemptSend_acts s o job _ hmem2 with ⟨m0, hbm, hmem3⟩
    rcases smtpSend_acts s o job.recipients m0 _ hmem3 with h | h | h | h | h
    · simp at h
    · simp at h
    · simp at h
    · simp at h
    · injection h with he hr hm
      subst hm
      refine ⟨s, hs, he, hr, buildMessage_fromHeader hbm, ?_⟩
      intro hdn hascii hlt _hgt hne
      have hga : s.get_sender_address = s.email_address := by
        simp [Sender.get_sender_address, hdn]
      have hfh := buildMessage_fromHeader hbm
      rw [hga, fix_no_brackets s.email_address (fun hc => hlt hc.1) hascii] at hfh
      have hmf : s.email_address = m.fromHeader := by
        simpa using hfh
      intro heq
      exact hne (calc s.username = env := he.symm
        _ = m.fromHeader := heq
        _ = s.email_address := hmf.symm)

/-- Witness for claim C9 at a concrete delivered job: the envelope sender is
the username `"user"`, distinct from the From header, which is the email
address `"team@example.com"`. -/
theorem C9_envelope_username_witness :
    ∃ s, resolveSender jobWithSender none = some s ∧ "user" = s.username ∧
      ["x@y.com"] = jobWithSender.recipients ∧
      fix_from_header s.get_sender_address = Except.ok msg0.fromHeader ∧
      (s.display_name = none → isAsciiL s.email_address.data = true →
        '<' ∉ s.email_address.data → '>' ∉ s.email_address.data →
        s.username ≠ s.email_address → "user" ≠ msg0.fromHeader) :=
  C9_envelope_username none oracle0 jobWithSender "user" ["x@y.com"] msg0 (by decide)

/-- Claim C8: with the template rendered to `body`, `queue_email` performs
exactly one render and inserts the serialized job whose body and html are
both that single rendered string; `send_now` constructs the identical job
but runs the send path on it instead, inserting nothing. -/
theorem C8_render_once_queue_vs_send (env : RenderEnv) (dflt : Option Sender)
    (o : SmtpOracle) (tname subject : String) (rcpts : List String) (ctx : Ctx)
    (sender : Option Sender) (hdrs : Option (List (String × String))) (body : String)
    (h : env.render tname ctx = Except.ok body) :
    queue_email env tname subject rcpts ctx sender hdrs true =
      Except.ok [Action.render tname ctx,
        Action.queueInsert (EmailJobX.to_dict
          ⟨subject, rcpts, some body, some body, sender, hdrs⟩),
        Action.logDebug] ∧
    send_now env dflt o tname subject rcpts ctx sender hdrs true =
      Except.ok ([Action.render tname ctx] ++
        (send_email dflt o ⟨subject, rcpts, some body, some body, sender, hdrs⟩).1 ++
        [Action.logDebug]) ∧
    (∀ d, Action.queueInsert d ∉
      [Action.render tname ctx] ++
        (send_email dflt o ⟨subject, rcpts, some body, some body, sender, hdrs⟩).1 ++
        [Action.logDebug]) := by
  refine ⟨?_, ?_, ?_⟩
  · simp [queue_email, h]
  · simp [send_now, h]
  · intro d hmem
    rcases List.mem_append.mp hmem with h1 | h1
    · rcases List.mem_append.mp h1 with h2 | h2
      · simp at h2
      · exact send_email_no_insert dflt o _ d h2
    · simp at h1

/-- Witness for claim C8 at a concrete template, context and recipient. -/
theorem C8_render_once_queue_vs_send_witness :
    queue_email renderEnv0 "welcome.tmpl" "Hi" ["x@y.com"] [("name", "Jo")] none none true =
      Except.ok [Action.render "welcome.tmpl" [("name", "Jo")],
        Action.queueInsert (EmailJobX.to_dict
          ⟨"Hi", ["x@y.com"], some "Hello Jo", some "Hello Jo", none, none⟩),
        Action.logDebug] ∧
    send_now renderEnv0 none oracle0 "welcome.tmpl" "Hi" ["x@y.com"] [("name", "Jo")] none none true =
      Except.ok ([Action.render "welcome.tmpl" [("name", "Jo")]] ++
        (send_email none oracle0
          ⟨"Hi", ["x@y.com"], some "Hello Jo", some "Hello Jo", none, none⟩).1 ++
        [Action.logDebug]) ∧
    (∀ d, Action.queueInsert d ∉
      [Action.render "welcome.tmpl" [("name", "Jo")]] ++
        (send_email none oracle0
          ⟨"Hi", ["x@y.com"], some "Hello Jo", some "Hello Jo", none, none⟩).1 ++
        [Action.logDebug]) :=
  C8_render_once_queue_vs_send renderEnv0 none oracle0 "welcome.tmpl" "Hi"
    ["x@y.com"] [("name", "Jo")] none none "Hello Jo" rfl

/-- Claim C10: with the send flag false, both `queue_email` and `send_now`
perform only the render and a log line — no document is inserted (the queue
replay is the identity) and no SMTP action occurs. -/
theorem C10_dry_run (env : RenderEnv) (dflt : Option Sender) (o : SmtpOracle)
    (tname subject : String) (rcpts : List String) (ctx : Ctx)
    (sender : Option Sender) (hdrs : Option (List (String × String)))
    (body : String) (q : List JobDoc)
    (h : env.render tname ctx = Except.ok body) :
    queue_email env tname subject rcpts ctx sender hdrs false =
      Except.ok [Action.render tname ctx, Action.logDebug] ∧
    send_now env dflt o tname subject rcpts ctx sender hdrs false =
      Except.ok [Action.render tname ctx, Action.logDebug] ∧
    applyActions q [Action.render tname ctx, Action.logDebug] = q := by
  refine ⟨?_, ?_, rfl⟩
  · simp [queue_email, h]
  · simp [send_now, h]

/-- Witness for claim C10 at a concrete template and queue. -/
theorem C10_dry_run_witness :
    queue_email renderEnv0 "welcome.tmpl" "Hi" ["x@y.com"] [("name", "Jo")] none none false =
      Except.ok [Action.render "welcome.tmpl" [("name", "Jo")], Action.logDebug] ∧
    send_now renderEnv0 none oracle0 "welcome.tmpl" "Hi" ["x@y.com"] [("name", "Jo")] none none false =
      Except.ok [Action.render "welcome.tmpl" [("name", "Jo")], Action.logDebug] ∧
    applyActions [EmailJobX.to_dict jobNoSender]
      [Action.render "welcome.tmpl" [("name", "Jo")], Action.logDebug] =
      [EmailJobX.to_dict jobNoSender] :=
  C10_dry_run renderEnv0 none oracle0 "welcome.tmpl" "Hi" ["x@y.com"]
    [("name", "Jo")] none none "Hello Jo" [EmailJobX.to_dict jobNoSender] rfl

end Emailer
